import Mathlib

/-!
Shallow embedding of the gmail_assistant mobile client (TypeScript / React
Native) and proofs about its specification claims.

Conventions used throughout:
* external services (the REST backend, `AsyncStorage`, `Date`, `fetch`) are
  modelled by environment records supplying the outcome of each call;
  a call that can reject is given type `Except String _`;
* JavaScript truthiness of `string | null` values is modelled by
  `strTruthy : Option String → Bool` (absent or empty strings are falsy);
* `JSON.stringify`/`JSON.parse` are platform externals; serialized strings
  are modelled by their parse trees (`Json`), which is faithful because
  stringify is injective on JSON values and parse is its left inverse.
-/

namespace GmailAssistant

/-- Truthiness of a JavaScript `string | null | undefined` value:
`null`, `undefined` and the empty string are falsy. -/
def strTruthy : Option String → Bool
  | none => false
  | some s => !s.isEmpty

/-- JSON values, the parse trees of serialized payloads. -/
inductive Json where
  | null : Json
  | bool (b : Bool) : Json
  | num (n : Int) : Json
  | str (s : String) : Json
  | arr (xs : List Json) : Json
  | obj (fields : List (String × Json)) : Json

/-- Field lookup on a JSON value: `j.k` is `undefined` (here `none`) unless
`j` is an object with field `k`. -/
def Json.getField : Json → String → Option Json
  | .obj fields, k => fields.lookup k
  | _, _ => none

/-- JavaScript truthiness of a JSON value. -/
def Json.truthy : Json → Bool
  | .null => false
  | .bool b => b
  | .num n => n != 0
  | .str s => !s.isEmpty
  | .arr _ => true
  | .obj _ => true

/-- String coercion of a JSON value, as JavaScript `String(v)` performs it:
arrays join their elements with commas, objects print as
`[object Object]`. -/
def Json.coerceStr : Json → String
  | .null => "null"
  | .bool b => if b then "true" else "false"
  | .num n => toString n
  | .str s => s
  | .arr xs => String.intercalate "," (xs.attach.map fun x => Json.coerceStr x.1)
  | .obj _ => "[object Object]"
decreasing_by
  simp_wf
  have h := List.sizeOf_lt_of_mem x.2
  omega

/-- A value held in `AsyncStorage`.  `raw s` is a string stored directly
(tokens, ISO timestamps — never valid JSON text); `json j` is the string
`JSON.stringify` produced for the value `j`, represented by its parse
tree. -/
inductive StoredVal where
  | raw (s : String) : StoredVal
  | json (j : Json) : StoredVal

/-- The key-value store behind `AsyncStorage`. -/
def Store : Type := String → Option StoredVal

/-- Model of `AsyncStorage.setItem`. -/
def setItem (st : Store) (k : String) (v : StoredVal) : Store :=
  fun k' => if k' = k then some v else st k'

/-- Truthiness of the string `AsyncStorage.getItem` returns for a stored
value (`null` and the empty string are falsy; `JSON.stringify` output is
never empty). -/
def storedTruthy : Option StoredVal → Bool
  | none => false
  | some (.raw s) => !s.isEmpty
  | some (.json _) => true

/-! ## api-client.ts -/

/-- A `fetch` response: its HTTP status and the outcomes of `response.json()`
and `response.text()` (each of which can itself reject). -/
structure HttpResponse where
  status : Nat
  jsonBody : Except String Json
  textBody : Except String String

/-- The `Response.ok` flag of the fetch specification: status in 200..299. -/
def respOk (r : HttpResponse) : Bool :=
  decide (200 ≤ r.status) && decide (r.status < 300)

/-- Environment for one `apiRequest` call: the stored API token and the
outcome of the single `fetch` (an `error` is a network failure). -/
structure ApiEnv where
  token : Option String
  fetchResult : Except String HttpResponse

/-- Observable outcome of `apiRequest`: the settled promise, the number of
HTTP requests issued, and whether the stored token was removed. -/
structure ApiOutcome where
  result : Except String Json
  requests : Nat
  tokenRemoved : Bool

/-- Fallback error text built from the HTTP status, from `api-client.ts`. -/
def httpErrFallback (status : Nat) : String :=
  "HTTP error! status: " ++ toString status

/-- The `errorData` object built for a non-OK response in `api-client.ts`:
the JSON body when it parses, otherwise an object wrapping the text body
(falling back to the status text when the text is empty or unreadable). -/
def errorDataOf (r : HttpResponse) : Json :=
  match r.jsonBody with
  | .ok j => j
  | .error _ =>
    match r.textBody with
    | .ok t => .obj [("error", .str (if t.isEmpty then httpErrFallback r.status else t))]
    | .error _ => .obj [("error", .str (httpErrFallback r.status))]

/-- The message thrown for a non-OK response:
`errorData.error || errorData.message || fallback` with JavaScript
truthiness, the chosen value coerced to a string. -/
def errorMessageOf (r : HttpResponse) : String :=
  let d := errorDataOf r
  match d.getField "error" with
  | some v =>
    if v.truthy then v.coerceStr
    else
      match d.getField "message" with
      | some w => if w.truthy then w.coerceStr else httpErrFallback r.status
      | none => httpErrFallback r.status
  | none =>
    match d.getField "message" with
    | some w => if w.truthy then w.coerceStr else httpErrFallback r.status
    | none => httpErrFallback r.status

/-- Embedding of `apiRequest` (src/src/services/api-client.ts).  A missing
or empty token rejects before any request; otherwise exactly one `fetch`
is issued.  A 401 response removes the stored token and rejects with
a fixed message; any other non-OK response rejects with the extracted
error message; an OK response resolves with its JSON body (whose parse
failure is rethrown by the surrounding catch). -/
def apiRequest (env : ApiEnv) : ApiOutcome :=
  if !strTruthy env.token then
    ⟨.error "No API token found. Please login again.", 0, false⟩
  else
    match env.fetchResult with
    | .error e => ⟨.error e, 1, false⟩
    | .ok resp =>
      if !respOk resp then
        if resp.status = 401 then
          ⟨.error "Session expired. Please login again.", 1, true⟩
        else
          ⟨.error (errorMessageOf resp), 1, false⟩
      else
        match resp.jsonBody with
        | .ok j => ⟨.ok j, 1, false⟩
        | .error e => ⟨.error e, 1, false⟩

/-! ## Theorems for C4 and C9 -/

/-- C4: every call of `apiRequest` issues at most one HTTP request; on a
missing (falsy) token it rejects with the fixed message before any request;
with a token present, a network failure rejects with that failure and a
non-OK response rejects with an error, in both cases after exactly the one
request — there is no retry, backoff or queueing. -/
theorem c4_apiRequest_single_request (env : ApiEnv) :
    (apiRequest env).requests ≤ 1 ∧
    (strTruthy env.token = false →
      apiRequest env =
        ⟨.error "No API token found. Please login again.", 0, false⟩) ∧
    (∀ e : String, strTruthy env.token = true → env.fetchResult = .error e →
      (apiRequest env).result = .error e ∧ (apiRequest env).requests = 1) ∧
    (∀ resp : HttpResponse, strTruthy env.token = true →
      env.fetchResult = .ok resp → respOk resp = false →
      (∃ msg : String, (apiRequest env).result = .error msg) ∧
        (apiRequest env).requests = 1) := by
  refine ⟨?_, ?_, ?_, ?_⟩
  · unfold apiRequest
    split
    · simp
    · split
      · simp
      · split
        · split <;> simp
        · split <;> simp
  · intro h
    unfold apiRequest
    simp [h]
  · intro e ht hf
    unfold apiRequest
    simp [ht, hf]
  · intro resp ht hf hok
    unfold apiRequest
    by_cases h401 : resp.status = 401 <;> simp [ht, hf, hok, h401]

/-- Witness for C4 at concrete inputs: a call with no token, a call hitting
a network failure, and a call receiving a 500 response. -/
theorem c4_apiRequest_single_request_witness :
    (apiRequest ⟨none, .error "netfail"⟩ =
      ⟨.error "No API token found. Please login again.", 0, false⟩) ∧
    ((apiRequest ⟨some "tok", .error "netfail"⟩).result = .error "netfail" ∧
      (apiRequest ⟨some "tok", .error "netfail"⟩).requests = 1) ∧
    ((∃ msg : String,
        (apiRequest ⟨some "tok", .ok ⟨500, .error "bad", .ok "oops"⟩⟩).result
          = .error msg) ∧
      (apiRequest ⟨some "tok", .ok ⟨500, .error "bad", .ok "oops"⟩⟩).requests = 1) :=
  ⟨(c4_apiRequest_single_request ⟨none, .error "netfail"⟩).2.1 (by decide),
   (c4_apiRequest_single_request ⟨some "tok", .error "netfail"⟩).2.2.1
     "netfail" (by decide) rfl,
   (c4_apiRequest_single_request ⟨some "tok", .ok ⟨500, .error "bad", .ok "oops"⟩⟩).2.2.2
     ⟨500, .error "bad", .ok "oops"⟩ (by decide) rfl (by decide)⟩

/-- C9: `apiRequest` removes the stored API token exactly when a response
with status 401 is received (in which case it rejects with the fixed
session-expired message); every other non-OK status rejects with the
extracted server error message and leaves the token in place. -/
theorem c9_apiRequest_token_removal (env : ApiEnv) :
    ((apiRequest env).tokenRemoved = true ↔
      (strTruthy env.token = true ∧
        ∃ resp : HttpResponse, env.fetchResult = .ok resp ∧ resp.status = 401)) ∧
    (∀ resp : HttpResponse, strTruthy env.token = true →
      env.fetchResult = .ok resp → resp.status = 401 →
      (apiRequest env).result = .error "Session expired. Please login again.") ∧
    (∀ resp : HttpResponse, strTruthy env.token = true →
      env.fetchResult = .ok resp → respOk resp = false → resp.status ≠ 401 →
      (apiRequest env).result = .error (errorMessageOf resp) ∧
        (apiRequest env).tokenRemoved = false) := by
  refine ⟨?_, ?_, ?_⟩
  · constructor
    · intro h
      unfold apiRequest at h
      cases ht : strTruthy env.token with
      | false => simp [ht] at h
      | true =>
        refine ⟨rfl, ?_⟩
        cases hf : env.fetchResult with
        | error e => simp [ht, hf] at h
        | ok resp =>
          refine ⟨resp, rfl, ?_⟩
          simp only [ht, hf] at h
          cases hok : respOk resp with
          | true =>
            simp [hok] at h
            cases hj : resp.jsonBody <;> simp [hj] at h
          | false =>
            simp only [hok] at h
            by_cases h401 : resp.status = 401
            · exact h401
            · simp [h401] at h
    · rintro ⟨ht, resp, hf, h401⟩
      have hok : respOk resp = false := by
        unfold respOk
        rw [h401]
        decide
      unfold apiRequest
      simp [ht, hf, hok, h401]
  · intro resp ht hf h401
    have hok : respOk resp = false := by
      unfold respOk
      rw [h401]
      decide
    unfold apiRequest
    simp [ht, hf, hok, h401]
  · intro resp ht hf hok h401
    unfold apiRequest
    simp [ht, hf, hok, h401]

/-- Witness for C9 at concrete inputs: a 401 response removes the token and
rejects with the session-expired message; a 500 response keeps the token
and rejects with the server error message. -/
theorem c9_apiRequest_token_removal_witness :
    ((apiRequest ⟨some "tok", .ok ⟨401, .ok (.obj []), .ok ""⟩⟩).tokenRemoved = true) ∧
    ((apiRequest ⟨some "tok", .ok ⟨401, .ok (.obj []), .ok ""⟩⟩).result
      = .error "Session expired. Please login again.") ∧
    ((apiRequest ⟨some "tok",
        .ok ⟨500, .ok (.obj [("error", .str "boom")]), .ok ""⟩⟩).result
      = .error (errorMessageOf ⟨500, .ok (.obj [("error", .str "boom")]), .ok ""⟩)) ∧
    ((apiRequest ⟨some "tok",
        .ok ⟨500, .ok (.obj [("error", .str "boom")]), .ok ""⟩⟩).tokenRemoved = false) :=
  ⟨(c9_apiRequest_token_removal ⟨some "tok", .ok ⟨401, .ok (.obj []), .ok ""⟩⟩).1.2
    ⟨by decide, ⟨401, .ok (.obj []), .ok ""⟩, rfl, rfl⟩,
   (c9_apiRequest_token_removal ⟨some "tok", .ok ⟨401, .ok (.obj []), .ok ""⟩⟩).2.1
    ⟨401, .ok (.obj []), .ok ""⟩ (by decide) rfl rfl,
   ((c9_apiRequest_token_removal ⟨some "tok",
      .ok ⟨500, .ok (.obj [("error", .str "boom")]), .ok ""⟩⟩).2.2
    ⟨500, .ok (.obj [("error", .str "boom")]), .ok ""⟩ (by decide) rfl (by decide)
    (by decide)).1,
   ((c9_apiRequest_token_removal ⟨some "tok",
      .ok ⟨500, .ok (.obj [("error", .str "boom")]), .ok ""⟩⟩).2.2
    ⟨500, .ok (.obj [("error", .str "boom")]), .ok ""⟩ (by decide) rfl (by decide)
    (by decide)).2⟩

/-! ## Session storage (session.ts and api-token.ts) -/

def SESSION_KEY : String := "@nebubots_session"

def LAST_ACTIVITY_KEY : String := "@nebubots_last_activity"

def LAST_VERIFICATION_KEY : String := "@nebubots_last_verification"

def API_TOKEN_KEY : String := "@nebubots_api_token"

/-- Token validity window in days (TOKEN_EXPIRY_DAYS). -/
def TOKEN_EXPIRY_DAYS : Int := 30

/-- Milliseconds per day, the divisor `1000 * 60 * 60 * 24` of session.ts. -/
def msPerDay : Int := 86400000

/-- The user record attached to a session. -/
structure User where
  id : Int
  email : String
  name : String
  image_url : Option String
deriving DecidableEq

/-- The `SessionData` record of session.ts. -/
structure SessionData where
  token : String
  user : User
  createdAt : String
  lastActivity : String
deriving DecidableEq

def Json.asStr : Json → Option String
  | .str s => some s
  | _ => none

def Json.asNum : Json → Option Int
  | .num n => some n
  | _ => none

/-- JSON encoding of a user record, as `JSON.stringify` lays it out
(`undefined` optional fields are omitted). -/
def encodeUser (u : User) : Json :=
  .obj ([("id", .num u.id), ("email", .str u.email), ("name", .str u.name)] ++
    (match u.image_url with
     | some s => [("image_url", Json.str s)]
     | none => []))

/-- JSON encoding of a `SessionData` record in declaration order. -/
def encodeSessionData (sd : SessionData) : Json :=
  .obj [("token", .str sd.token), ("user", encodeUser sd.user),
        ("createdAt", .str sd.createdAt), ("lastActivity", .str sd.lastActivity)]

/-- Field extraction for a parsed user object (the unchecked TypeScript cast
is modelled by reading the fields the program later accesses). -/
def decodeUser (j : Json) : Option User := do
  let id ← (← j.getField "id").asNum
  let email ← (← j.getField "email").asStr
  let name ← (← j.getField "name").asStr
  let image_url := (j.getField "image_url").bind Json.asStr
  pure ⟨id, email, name, image_url⟩

/-- Field extraction for a parsed `SessionData` object. -/
def decodeSessionData (j : Json) : Option SessionData := do
  let token ← (← j.getField "token").asStr
  let user ← decodeUser (← j.getField "user")
  let createdAt ← (← j.getField "createdAt").asStr
  let lastActivity ← (← j.getField "lastActivity").asStr
  pure ⟨token, user, createdAt, lastActivity⟩

/-- Embedding of `saveSession` (session.ts): builds a `SessionData` with both
timestamps equal to `now`, stringifies it under the session key, and writes
the activity timestamp, verification timestamp and API token.  The source
issues the four writes with `Promise.all`; they hit four distinct keys, so
sequential composition is equivalent. -/
def saveSession (token : String) (user : User) (nowIso : String) (st : Store) : Store :=
  let sessionData : SessionData := ⟨token, user, nowIso, nowIso⟩
  let st := setItem st SESSION_KEY (.json (encodeSessionData sessionData))
  let st := setItem st LAST_ACTIVITY_KEY (.raw nowIso)
  let st := setItem st LAST_VERIFICATION_KEY (.raw nowIso)
  setItem st API_TOKEN_KEY (.raw token)

/-- Embedding of `getSession` (session.ts): a missing or empty blob yields
`null`; a raw (non-stringify) blob makes `JSON.parse` throw, which the
catch turns into `null`; a stringified blob parses back and is used as a
`SessionData`. -/
def getSession (st : Store) : Option SessionData :=
  match st SESSION_KEY with
  | none => none
  | some (.raw _) => none
  | some (.json j) => decodeSessionData j

theorem decodeUser_encodeUser (u : User) : decodeUser (encodeUser u) = some u := by
  cases u with
  | mk i e n img => cases img <;> rfl

theorem decodeSessionData_encodeSessionData (sd : SessionData) :
    decodeSessionData (encodeSessionData sd) = some sd := by
  cases sd with
  | mk t u c l =>
    cases u with
    | mk i e n img => cases img <;> rfl

/-- C6: a session round-trips through storage verbatim: after
`saveSession token user` at time `now`, `getSession` returns a record whose
token, user, createdAt and lastActivity fields equal the saved ones. -/
theorem c6_saveSession_getSession_roundtrip (token : String) (user : User)
    (nowIso : String) (st : Store) :
    getSession (saveSession token user nowIso st) =
      some ⟨token, user, nowIso, nowIso⟩ := by
  have h : getSession (saveSession token user nowIso st) =
      decodeSessionData (encodeSessionData ⟨token, user, nowIso, nowIso⟩) := rfl
  rw [h, decodeSessionData_encodeSessionData]

/-! ## checkLocalSession (session.ts) -/

/-- Result of the fast local session check.  The `user` field carries the
`user` property of the parsed session object (a raw JSON value, since the
TypeScript cast performs no validation); `clearInitiated` records that the
expired branch fired the background `clearSession()`. -/
structure CheckResult where
  isValid : Bool
  user : Option Json
  clearInitiated : Bool

/-- The last-activity timestamp in epoch milliseconds: the stored raw string
run through the platform date parser `dateMs` (`none` models `NaN`).
A stringified blob under this key would also parse to `NaN`. -/
def lastActivityMs (dateMs : String → Option Int) (st : Store) : Option Int :=
  match st LAST_ACTIVITY_KEY with
  | some (.raw s) => dateMs s
  | _ => none

/-- Embedding of `checkLocalSession` (session.ts).  It performs no network
call: every input is read from the local store.  A falsy session blob or
token fails fast; a blob `JSON.parse` cannot read (any raw stored string)
lands in the catch and fails; a last activity more than 30 days old clears
the session in the background and fails; otherwise the check succeeds with
the session's user.  The 24-hour verification-cache branch of the source
only chooses between two identical return values and is collapsed here. -/
def checkLocalSession (dateMs : String → Option Int) (nowMs : Int)
    (st : Store) : CheckResult :=
  let sessionData := st SESSION_KEY
  let token := st API_TOKEN_KEY
  if !storedTruthy sessionData || !storedTruthy token then
    ⟨false, none, false⟩
  else
    match sessionData with
    | some (.json j) =>
      let expired :=
        match lastActivityMs dateMs st with
        | some t => decide (nowMs - t > TOKEN_EXPIRY_DAYS * msPerDay)
        | none => false
      if expired then ⟨false, none, true⟩
      else ⟨true, j.getField "user", false⟩
    | _ => ⟨false, none, false⟩

/-- Amended C10: `checkLocalSession` returns invalid whenever the session
blob or token is falsy, whenever the blob is not parseable JSON (a raw
stored string), and whenever the last activity lies more than 30 days in
the past — only the last case initiates a session clear; in every other
case it returns valid with the stored user field, all without any network
call (the function consumes only the local store). -/
theorem c10_checkLocalSession_amended (dateMs : String → Option Int)
    (nowMs : Int) (st : Store) :
    (storedTruthy (st SESSION_KEY) = false ∨ storedTruthy (st API_TOKEN_KEY) = false →
      checkLocalSession dateMs nowMs st = ⟨false, none, false⟩) ∧
    (∀ s : String, storedTruthy (st API_TOKEN_KEY) = true →
      st SESSION_KEY = some (.raw s) → !s.isEmpty →
      checkLocalSession dateMs nowMs st = ⟨false, none, false⟩) ∧
    (∀ (j : Json) (t : Int), storedTruthy (st API_TOKEN_KEY) = true →
      st SESSION_KEY = some (.json j) →
      lastActivityMs dateMs st = some t →
      nowMs - t > TOKEN_EXPIRY_DAYS * msPerDay →
      checkLocalSession dateMs nowMs st = ⟨false, none, true⟩) ∧
    (∀ j : Json, storedTruthy (st API_TOKEN_KEY) = true →
      st SESSION_KEY = some (.json j) →
      (∀ t : Int, lastActivityMs dateMs st = some t →
        ¬(nowMs - t > TOKEN_EXPIRY_DAYS * msPerDay)) →
      checkLocalSession dateMs nowMs st = ⟨true, j.getField "user", false⟩) := by
  refine ⟨?_, ?_, ?_, ?_⟩
  · intro h
    unfold checkLocalSession
    rcases h with h | h <;> simp [h]
  · intro s htok hs hne
    unfold checkLocalSession
    simp [hs, htok, storedTruthy, hne]
  · intro j t htok hs hla hexp
    unfold checkLocalSession
    simp only [hs, htok]
    simp [storedTruthy, hla, hexp]
  · intro j htok hs hnotexp
    unfold checkLocalSession
    simp only [hs, htok]
    cases hla : lastActivityMs dateMs st with
    | none => simp [storedTruthy, hla]
    | some t =>
      have h := hnotexp t hla
      simp [storedTruthy, hla, h]

/-- A concrete store whose session blob is a raw, non-JSON string. -/
def c10RawStore : Store := fun k =>
  if k = SESSION_KEY then some (.raw "sess")
  else if k = API_TOKEN_KEY then some (.raw "tok")
  else if k = LAST_ACTIVITY_KEY then some (.raw "recent")
  else none

/-- A concrete store whose session blob is a stringified object. -/
def c10JsonStore : Store := fun k =>
  if k = SESSION_KEY then some (.json (.obj [("user", .str "u")]))
  else if k = API_TOKEN_KEY then some (.raw "tok")
  else if k = LAST_ACTIVITY_KEY then some (.raw "recent")
  else none

/-- Witness for C10 instantiating each branch of the amended theorem on a
concrete store: a missing blob, an unparseable raw blob, an expired
session, and a fresh one. -/
theorem c10_checkLocalSession_amended_witness :
    (checkLocalSession (fun _ => some 0) 0 (fun _ => none) = ⟨false, none, false⟩) ∧
    (checkLocalSession (fun _ => some 0) 0 c10RawStore = ⟨false, none, false⟩) ∧
    (checkLocalSession (fun _ => some 0) (TOKEN_EXPIRY_DAYS * msPerDay + 1)
      c10JsonStore = ⟨false, none, true⟩) ∧
    (checkLocalSession (fun _ => some 0) 0 c10JsonStore =
      ⟨true, some (.str "u"), false⟩) :=
  ⟨(c10_checkLocalSession_amended (fun _ => some 0) 0 (fun _ => none)).1
    (Or.inl rfl),
   (c10_checkLocalSession_amended (fun _ => some 0) 0 c10RawStore).2.1
    "sess" (by decide) rfl (by decide),
   (c10_checkLocalSession_amended (fun _ => some 0) (TOKEN_EXPIRY_DAYS * msPerDay + 1)
      c10JsonStore).2.2.1 (.obj [("user", .str "u")]) 0 (by decide) rfl
      rfl (by decide),
   by
    have h := (c10_checkLocalSession_amended (fun _ => some 0) 0 c10JsonStore).2.2.2
      (.obj [("user", .str "u")]) (by decide) rfl
      (by
        intro t ht
        have h0 : some (0 : Int) = some t :=
          (rfl :
            some (0 : Int) = lastActivityMs (fun _ => some 0) c10JsonStore).trans ht
        injection h0 with h1
        subst h1
        decide)
    exact h⟩

/-- C10 counterexample: a store holding a truthy but unparseable session
blob together with a fresh token and recent activity.  The claim as stated
puts this in the "every other case" bucket and demands `isValid = true`,
but `JSON.parse` throws and the code returns `isValid = false`. -/
theorem c10_checkLocalSession_counterexample :
    storedTruthy (c10RawStore SESSION_KEY) = true ∧
    storedTruthy (c10RawStore API_TOKEN_KEY) = true ∧
    lastActivityMs (fun _ => some 0) c10RawStore = some 0 ∧
    ¬((0 : Int) - 0 > TOKEN_EXPIRY_DAYS * msPerDay) ∧
    (checkLocalSession (fun _ => some 0) 0 c10RawStore).isValid = false := by
  refine ⟨by decide, by decide, by decide, by decide, by decide⟩

/-! ## Background services (autoSyncService.ts, autoReplyService.ts)

Each service owns module-level state: an `isRunning` flag, the interval
handle variable (`syncInterval` / `replyCheckInterval`), the app-state
subscription, and (auto-reply only) `lastCheckedTimestamp`.  The model
additionally tracks the identities of all interval timers that have been
installed and not cleared (`activeTimers`): overwriting the handle variable
does not clear the timer it pointed to, so a timer can outlive its
handle. -/

structure SvcState where
  isRunning : Bool
  timerHandle : Option Nat
  activeTimers : List Nat
  nextTimer : Nat
  subActive : Bool
  lastChecked : Option String
deriving DecidableEq

/-- Module state at load: no flag, no timer, no subscription. -/
def initSvcState : SvcState := ⟨false, none, [], 0, false, none⟩

/-- Embedding of `stopAutoSync`: a no-op unless running; otherwise it
clears the flag, clears the interval when a handle is held, and removes
the subscription. -/
def stopAutoSync (s : SvcState) : SvcState :=
  if !s.isRunning then s
  else
    match s.timerHandle with
    | some t =>
      { s with isRunning := false, activeTimers := s.activeTimers.erase t,
               timerHandle := none, subActive := false }
    | none => { s with isRunning := false, subActive := false }

/-- Embedding of `stopAutoReply`: as `stopAutoSync`, and additionally
resets `lastCheckedTimestamp`. -/
def stopAutoReply (s : SvcState) : SvcState :=
  if !s.isRunning then s
  else
    match s.timerHandle with
    | some t =>
      { s with isRunning := false, activeTimers := s.activeTimers.erase t,
               timerHandle := none, subActive := false, lastChecked := none }
    | none => { s with isRunning := false, subActive := false, lastChecked := none }

/-- The fields of the `Email` record the auto-reply loop inspects. -/
structure Email where
  id : Nat
  from_email : String
  to_email : String
  read : Bool
  replied_at : Option String
deriving DecidableEq

/-- ASCII lower-casing of one character, as JavaScript `toLowerCase` acts
on the ASCII range. -/
def asciiToLower (c : Char) : Char :=
  if 'A' ≤ c && c ≤ 'Z' then Char.ofNat (c.toNat + 32) else c

/-- Model of JavaScript `String.toLowerCase`. -/
def strToLower (s : String) : String :=
  ⟨s.data.map asciiToLower⟩

/-- Drops leading whitespace characters. -/
def dropLeadingWhite : List Char → List Char
  | [] => []
  | c :: cs => if c.isWhitespace then dropLeadingWhite cs else c :: cs

/-- Model of JavaScript `String.trim`: strips whitespace from both ends. -/
def strTrim (s : String) : String :=
  ⟨(dropLeadingWhite (dropLeadingWhite s.data).reverse).reverse⟩

/-- Model of JavaScript `String.length` (the code-unit count; identical to
the character count on the payloads modelled here). -/
def strLength (s : String) : Nat :=
  s.data.length

/-- Model of JavaScript `String.substring(0, n)`. -/
def strTake (s : String) (n : Nat) : String :=
  ⟨s.data.take n⟩

/-- Whether the pattern occurs at the head of the character list. -/
def headMatch : List Char → List Char → Bool
  | [], _ => true
  | _ :: _, [] => false
  | a :: as, b :: bs => a == b && headMatch as bs

/-- Whether the pattern occurs contiguously anywhere in the list. -/
def hasSubList : List Char → List Char → Bool
  | pat, [] => pat.isEmpty
  | pat, b :: rest => headMatch pat (b :: rest) || hasSubList pat rest

/-- Substring containment, the semantics of JavaScript `String.includes`. -/
def containsSub (s pat : String) : Bool :=
  hasSubList pat.data s.data

/-- The no-reply sender filter of `checkAndReplyToEmails`. -/
def isNoReplyAddress (fromEmail : String) : Bool :=
  let l := strToLower fromEmail
  containsSub l "noreply" || containsSub l "no-reply" ||
  containsSub l "donotreply" || containsSub l "do-not-reply" ||
  containsSub l "mailer-daemon" || containsSub l "postmaster"

/-- The prefilter applied to the fetched page:
`emails.filter(email => !email.read && !email.replied_at)`. -/
def unreadFilter (e : Email) : Bool :=
  !e.read && !strTruthy e.replied_at

/-- Environment for one `checkAndReplyToEmails` pass: the stored token, the
outcome of `getSettings` (reduced to the `auto_reply_enabled` flag), the
outcome of `fetchEmails(1, 20)`, per-email outcomes of `generateReply`
(`ok none` models an `undefined` reply field) and `sendReply`, and the
current ISO timestamp. -/
structure ReplyEnv where
  token : Option String
  settingsResult : Except String Bool
  fetchResult : Except String (List Email)
  replyOf : Nat → Except String (Option String)
  sendResult : Nat → String → Except String Bool
  now : String

/-- One iteration of the auto-reply loop for an email that passed the
prefilter; returns the `sendReply` call it issues, if any.  A rejection of
`generateReply` lands in the per-email catch and skips the email; a
rejection of `sendReply` is also caught, but that call has already been
issued and is therefore still recorded. -/
def processEmail (env : ReplyEnv) (e : Email) : Option (Nat × String) :=
  if strTruthy e.replied_at || e.from_email.isEmpty || e.to_email.isEmpty then none
  else if isNoReplyAddress e.from_email then none
  else
    match env.replyOf e.id with
    | .error _ => none
    | .ok none => none
    | .ok (some r) =>
      let replyText := strTrim r
      if replyText.isEmpty then none
      else
        let trimmedReply :=
          if strLength replyText > 50000 then strTake replyText 50000 else replyText
        some (e.id, trimmedReply)

/-- The send call one fetched email gives rise to: emails failing the
unread prefilter never reach the loop body. -/
def emailSendCall (env : ReplyEnv) (e : Email) : Option (Nat × String) :=
  if unreadFilter e then processEmail env e else none

/-- Body of `checkAndReplyToEmails` before its outer catch: `inl` is a
normal return, `inr` a thrown error paired with the state and send calls
at the throw point (`getSettings` and `fetchEmails` are the only awaited
calls outside the per-email catch). -/
def checkAndReplyTry (env : ReplyEnv) (s : SvcState) :
    (SvcState × List (Nat × String)) ⊕ (String × SvcState × List (Nat × String)) :=
  if !strTruthy env.token then .inl (s, [])
  else
    match env.settingsResult with
    | .error e => .inr (e, s, [])
    | .ok enabled =>
      if !enabled then .inl (stopAutoReply s, [])
      else
        match env.fetchResult with
        | .error e => .inr (e, s, [])
        | .ok emails =>
          let unread := emails.filter unreadFilter
          if unread.isEmpty then .inl (s, [])
          else
            .inl ({ s with lastChecked := some env.now },
              unread.filterMap (processEmail env))

/-- Embedding of `checkAndReplyToEmails`: the outer catch logs any thrown
error and the promise resolves. -/
def checkAndReplyToEmails (env : ReplyEnv) (s : SvcState) :
    Except String (SvcState × List (Nat × String)) :=
  match checkAndReplyTry env s with
  | .inl r => .ok r
  | .inr (_, s', sends) => .ok (s', sends)

/-- Environment for one `performSync` pass: the stored token, the outcome
of `getSettings` (reduced to `auto_sync_enabled`), and the outcome of
`syncEmails` (its Bool is the response's `success` flag, which is only
logged). -/
structure SyncEnv where
  token : Option String
  settingsResult : Except String Bool
  syncResult : Except String Bool

/-- Body of `performSync` before its catch; the Bool records whether
`syncEmails` was invoked. -/
def performSyncTry (env : SyncEnv) (s : SvcState) :
    (SvcState × Bool) ⊕ (String × SvcState × Bool) :=
  if !strTruthy env.token then .inl (s, false)
  else
    match env.settingsResult with
    | .error e => .inr (e, s, false)
    | .ok enabled =>
      if !enabled then .inl (stopAutoSync s, false)
      else
        match env.syncResult with
        | .error e => .inr (e, s, true)
        | .ok _ => .inl (s, true)

/-- Embedding of `performSync`: the catch logs any thrown error and the
promise resolves. -/
def performSync (env : SyncEnv) (s : SvcState) : Except String (SvcState × Bool) :=
  match performSyncTry env s with
  | .inl r => .ok r
  | .inr (_, s', d) => .ok (s', d)

/-- Environment for one `startAutoSync` call: its own token and settings
reads, plus the environment of the initial `performSync`. -/
structure StartSyncEnv where
  token : Option String
  settingsResult : Except String Bool
  sync : SyncEnv

/-- Embedding of `startAutoSync`.  The `isRunning` guard returns first;
otherwise token and settings are checked, `isRunning` is set, the initial
sync runs, and a fresh interval timer and app-state subscription are
installed — overwriting the handle variable without clearing the timer it
may still point to.  The catch arm mirrors the source's catch (which
resets only the flag); `getApiToken` never throws and `performSync`
always resolves, so only the settings read can reach it. -/
def startAutoSync (env : StartSyncEnv) (s : SvcState) :
    Except String (SvcState × Bool) :=
  if s.isRunning then .ok (s, false)
  else if !strTruthy env.token then .ok (s, false)
  else
    match env.settingsResult with
    | .error _ => .ok ({ s with isRunning := false }, false)
    | .ok enabled =>
      if !enabled then .ok (s, false)
      else
        let s1 := { s with isRunning := true }
        match performSync env.sync s1 with
        | .error _ => .ok ({ s1 with isRunning := false }, false)
        | .ok (s2, d) =>
          .ok ({ s2 with
                  timerHandle := some s2.nextTimer,
                  activeTimers := s2.activeTimers ++ [s2.nextTimer],
                  nextTimer := s2.nextTimer + 1,
                  subActive := true }, d)

/-- Environment for one `startAutoReply` call. -/
structure StartReplyEnv where
  token : Option String
  settingsResult : Except String Bool
  check : ReplyEnv

/-- Embedding of `startAutoReply`, structured exactly as `startAutoSync`
with the initial `checkAndReplyToEmails` in place of the sync. -/
def startAutoReply (env : StartReplyEnv) (s : SvcState) :
    Except String (SvcState × List (Nat × String)) :=
  if s.isRunning then .ok (s, [])
  else if !strTruthy env.token then .ok (s, [])
  else
    match env.settingsResult with
    | .error _ => .ok ({ s with isRunning := false }, [])
    | .ok enabled =>
      if !enabled then .ok (s, [])
      else
        let s1 := { s with isRunning := true }
        match checkAndReplyToEmails env.check s1 with
        | .error _ => .ok ({ s1 with isRunning := false }, [])
        | .ok (s2, sends) =>
          .ok ({ s2 with
                  timerHandle := some s2.nextTimer,
                  activeTimers := s2.activeTimers ++ [s2.nextTimer],
                  nextTimer := s2.nextTimer + 1,
                  subActive := true }, sends)

/-- Environment for `initializeAutoSync`: its token and settings reads
plus the environment of the `startAutoSync` it may invoke. -/
structure InitSyncEnv where
  token : Option String
  settingsResult : Except String Bool
  start : StartSyncEnv

/-- Embedding of `initializeAutoSync` (the whole body sits in a
try/catch that logs and resolves). -/
def initAutoSync (env : InitSyncEnv) (s : SvcState) :
    Except String (SvcState × Bool) :=
  if !strTruthy env.token then .ok (s, false)
  else
    match env.settingsResult with
    | .error _ => .ok (s, false)
    | .ok enabled =>
      if enabled then
        match startAutoSync env.start s with
        | .ok r => .ok r
        | .error _ => .ok (s, false)
      else .ok (stopAutoSync s, false)

/-- Environment for `initializeAutoReply`. -/
structure InitReplyEnv where
  token : Option String
  settingsResult : Except String Bool
  start : StartReplyEnv

/-- Embedding of `initializeAutoReply`. -/
def initAutoReply (env : InitReplyEnv) (s : SvcState) :
    Except String (SvcState × List (Nat × String)) :=
  if !strTruthy env.token then .ok (s, [])
  else
    match env.settingsResult with
    | .error _ => .ok (s, [])
    | .ok enabled =>
      if enabled then
        match startAutoReply env.start s with
        | .ok r => .ok r
        | .error _ => .ok (s, [])
      else .ok (stopAutoReply s, [])

/-- C3: the background loops swallow every failure: whatever the outcomes
of the underlying token, settings, sync, fetch, generate and send calls
(success, API error, or rejection), `performSync`,
`checkAndReplyToEmails`, `initializeAutoSync` (`initAutoSync`) and
`initializeAutoReply` (`initAutoReply`) resolve normally — none of them
ever propagates an exception to its caller. -/
theorem c3_background_loops_resolve :
    (∀ (env : SyncEnv) (s : SvcState), ∃ r, performSync env s = Except.ok r) ∧
    (∀ (env : ReplyEnv) (s : SvcState), ∃ r, checkAndReplyToEmails env s = Except.ok r) ∧
    (∀ (env : InitSyncEnv) (s : SvcState), ∃ r, initAutoSync env s = Except.ok r) ∧
    (∀ (env : InitReplyEnv) (s : SvcState), ∃ r, initAutoReply env s = Except.ok r) := by
  have hsync : ∀ (env : SyncEnv) (s : SvcState), ∃ r, performSync env s = Except.ok r := by
    intro env s
    unfold performSync
    cases performSyncTry env s with
    | inl r => exact ⟨r, rfl⟩
    | inr e =>
      obtain ⟨m, s', d⟩ := e
      exact ⟨(s', d), rfl⟩
  have hreply : ∀ (env : ReplyEnv) (s : SvcState),
      ∃ r, checkAndReplyToEmails env s = Except.ok r := by
    intro env s
    unfold checkAndReplyToEmails
    cases checkAndReplyTry env s with
    | inl r => exact ⟨r, rfl⟩
    | inr e =>
      obtain ⟨m, s', sends⟩ := e
      exact ⟨(s', sends), rfl⟩
  refine ⟨hsync, hreply, ?_, ?_⟩
  · intro env s
    unfold initAutoSync
    by_cases ht : (!strTruthy env.token) = true
    · rw [if_pos ht]
      exact ⟨(s, false), rfl⟩
    · rw [if_neg ht]
      cases env.settingsResult with
      | error e => exact ⟨(s, false), rfl⟩
      | ok enabled =>
        cases enabled with
        | false => exact ⟨(stopAutoSync s, false), rfl⟩
        | true =>
          simp only [if_pos]
          cases hs : startAutoSync env.start s with
          | ok r => exact ⟨r, by simp [hs]⟩
          | error e => exact ⟨(s, false), by simp [hs]⟩
  · intro env s
    unfold initAutoReply
    by_cases ht : (!strTruthy env.token) = true
    · rw [if_pos ht]
      exact ⟨(s, []), rfl⟩
    · rw [if_neg ht]
      cases env.settingsResult with
      | error e => exact ⟨(s, []), rfl⟩
      | ok enabled =>
        cases enabled with
        | false => exact ⟨(stopAutoReply s, []), rfl⟩
        | true =>
          simp only [if_pos]
          cases hs : startAutoReply env.start s with
          | ok r => exact ⟨r, by simp [hs]⟩
          | error e => exact ⟨(s, []), by simp [hs]⟩

/-! ## Call sequences against the two services (claim C1) -/

/-- A call against the auto-sync service's exported API. -/
inductive SyncOp where
  | start (e : StartSyncEnv)
  | stop

/-- Effect of one auto-sync call on the module state. -/
def syncStep (s : SvcState) (op : SyncOp) : SvcState :=
  match op with
  | .start e =>
    match startAutoSync e s with
    | .ok (s', _) => s'
    | .error _ => s
  | .stop => stopAutoSync s

/-- The module state after a sequence of start/stop calls from load. -/
def runSyncOps (ops : List SyncOp) : SvcState :=
  ops.foldl syncStep initSvcState

/-- A call against the auto-reply service's exported API. -/
inductive ReplyOp where
  | start (e : StartReplyEnv)
  | stop

/-- Effect of one auto-reply call on the module state. -/
def replyStep (s : SvcState) (op : ReplyOp) : SvcState :=
  match op with
  | .start e =>
    match startAutoReply e s with
    | .ok (s', _) => s'
    | .error _ => s
  | .stop => stopAutoReply s

/-- The module state after a sequence of start/stop calls from load. -/
def runReplyOps (ops : List ReplyOp) : SvcState :=
  ops.foldl replyStep initSvcState

/-- A sync environment is stable when the settings read inside the sync
does not report the feature disabled (so the sync cannot stop the service
mid-start). -/
def syncEnvStable (env : SyncEnv) : Bool :=
  match env.settingsResult with
  | .ok false => false
  | _ => true

/-- A reply environment is stable in the same sense. -/
def replyEnvStable (env : ReplyEnv) : Bool :=
  match env.settingsResult with
  | .ok false => false
  | _ => true

def stableSyncOp : SyncOp → Bool
  | .start e => syncEnvStable e.sync
  | .stop => true

def stableReplyOp : ReplyOp → Bool
  | .start e => replyEnvStable e.check
  | .stop => true

/-- The invariant tying the handle variable to the set of live timers:
the handle points at the only live timer (if any), and a held handle
implies the running flag. -/
def timerInv (s : SvcState) : Prop :=
  (s.timerHandle = none → s.activeTimers = []) ∧
  (∀ t, s.timerHandle = some t → s.activeTimers = [t]) ∧
  (∀ t, s.timerHandle = some t → s.isRunning = true)

theorem timerInv_init : timerInv initSvcState :=
  ⟨fun _ => rfl, fun t ht => by simp [initSvcState] at ht,
   fun t ht => by simp [initSvcState] at ht⟩

theorem timerInv_stopAutoSync {s : SvcState} (h : timerInv s) :
    timerInv (stopAutoSync s) := by
  obtain ⟨h1, h2, h3⟩ := h
  unfold stopAutoSync
  cases hr : s.isRunning with
  | false => simp only [hr, Bool.not_false, if_pos]; exact ⟨h1, h2, h3⟩
  | true =>
    cases hh : s.timerHandle with
    | some t =>
      have ha : s.activeTimers = [t] := h2 t hh
      simp [hr, hh, ha, timerInv]
    | none =>
      have ha : s.activeTimers = [] := h1 hh
      simp [hr, hh, ha, timerInv]

theorem timerInv_stopAutoReply {s : SvcState} (h : timerInv s) :
    timerInv (stopAutoReply s) := by
  obtain ⟨h1, h2, h3⟩ := h
  unfold stopAutoReply
  cases hr : s.isRunning with
  | false => simp only [hr, Bool.not_false, if_pos]; exact ⟨h1, h2, h3⟩
  | true =>
    cases hh : s.timerHandle with
    | some t =>
      have ha : s.activeTimers = [t] := h2 t hh
      simp [hr, hh, ha, timerInv]
    | none =>
      have ha : s.activeTimers = [] := h1 hh
      simp [hr, hh, ha, timerInv]

/-- Under a stable environment `performSync` resolves without touching the
module state. -/
theorem performSync_stable (env : SyncEnv) (s : SvcState)
    (hst : syncEnvStable env = true) :
    ∃ d, performSync env s = Except.ok (s, d) := by
  unfold performSync performSyncTry
  by_cases ht : (!strTruthy env.token) = true
  · simp [ht]
  · simp only [ht, Bool.false_eq_true, if_false]
    cases hsr : env.settingsResult with
    | error m => simp
    | ok enabled =>
      cases enabled with
      | false => simp [syncEnvStable, hsr] at hst
      | true =>
        cases env.syncResult <;> simp

/-- Under a stable environment `checkAndReplyToEmails` resolves and leaves
every timer-related field of the module state unchanged (it may only set
`lastChecked`). -/
theorem checkAndReply_stable_fields (env : ReplyEnv) (s : SvcState)
    (hst : replyEnvStable env = true) :
    ∃ s2 sends, checkAndReplyToEmails env s = Except.ok (s2, sends) ∧
      s2.isRunning = s.isRunning ∧ s2.timerHandle = s.timerHandle ∧
      s2.activeTimers = s.activeTimers ∧ s2.nextTimer = s.nextTimer := by
  unfold checkAndReplyToEmails checkAndReplyTry
  by_cases ht : (!strTruthy env.token) = true
  · exact ⟨s, [], by simp [ht], rfl, rfl, rfl, rfl⟩
  · simp only [ht, Bool.false_eq_true, if_false]
    cases hsr : env.settingsResult with
    | error m => exact ⟨s, [], by simp, rfl, rfl, rfl, rfl⟩
    | ok enabled =>
      cases enabled with
      | false => simp [replyEnvStable, hsr] at hst
      | true =>
        cases hf : env.fetchResult with
        | error m => exact ⟨s, [], by simp, rfl, rfl, rfl, rfl⟩
        | ok emails =>
          by_cases hu : (emails.filter unreadFilter).isEmpty = true
          · exact ⟨s, [], by simp [hu], rfl, rfl, rfl, rfl⟩
          · refine ⟨{ s with lastChecked := some env.now },
              (emails.filter unreadFilter).filterMap (processEmail env),
              by simp [hu], rfl, rfl, rfl, rfl⟩

theorem timerInv_syncStep {s : SvcState} (op : SyncOp)
    (hst : stableSyncOp op = true) (h : timerInv s) :
    timerInv (syncStep s op) := by
  cases op with
  | stop => exact timerInv_stopAutoSync h
  | start e =>
    unfold syncStep startAutoSync
    cases hr : s.isRunning with
    | true => simpa [hr] using h
    | false =>
      by_cases ht : (!strTruthy e.token) = true
      · simpa [hr, ht] using h
      · simp only [hr, Bool.false_eq_true, if_false, ht]
        cases hsr : e.settingsResult with
        | error m =>
          refine ⟨h.1, h.2.1, fun t htt => ?_⟩
          exact absurd (h.2.2 t htt) (by simp [hr])
        | ok enabled =>
          cases enabled with
          | false => simpa using h
          | true =>
            obtain ⟨d, hps⟩ := performSync_stable e.sync { s with isRunning := true }
              (by simpa [stableSyncOp, syncEnvStable] using hst)
            have hnone : s.timerHandle = none := by
              cases hh : s.timerHandle with
              | none => rfl
              | some t => exact absurd (h.2.2 t hh) (by simp [hr])
            have ha : s.activeTimers = [] := h.1 hnone
            simp only [hps]
            simp [timerInv, ha]

theorem timerInv_replyStep {s : SvcState} (op : ReplyOp)
    (hst : stableReplyOp op = true) (h : timerInv s) :
    timerInv (replyStep s op) := by
  cases op with
  | stop => exact timerInv_stopAutoReply h
  | start e =>
    unfold replyStep startAutoReply
    cases hr : s.isRunning with
    | true => simpa [hr] using h
    | false =>
      by_cases ht : (!strTruthy e.token) = true
      · simpa [hr, ht] using h
      · simp only [hr, Bool.false_eq_true, if_false, ht]
        cases hsr : e.settingsResult with
        | error m =>
          refine ⟨h.1, h.2.1, fun t htt => ?_⟩
          exact absurd (h.2.2 t htt) (by simp [hr])
        | ok enabled =>
          cases enabled with
          | false => simpa using h
          | true =>
            obtain ⟨s2, sends, hcr, hrun, hth, hat, hnt⟩ :=
              checkAndReply_stable_fields e.check { s with isRunning := true }
                (by simpa [stableReplyOp, replyEnvStable] using hst)
            have hnone : s.timerHandle = none := by
              cases hh : s.timerHandle with
              | none => rfl
              | some t => exact absurd (h.2.2 t hh) (by simp [hr])
            have ha : s2.activeTimers = [] := by
              rw [hat]
              exact h.1 hnone
            simp only [hcr]
            simp [timerInv, ha, hrun]

theorem timerInv_runSync (ops : List SyncOp) :
    ∀ s, timerInv s → (∀ op ∈ ops, stableSyncOp op = true) →
      timerInv (ops.foldl syncStep s) := by
  induction ops with
  | nil => intro s h _; exact h
  | cons op rest ih =>
    intro s h hstable
    exact ih (syncStep s op)
      (timerInv_syncStep op (hstable op (by simp)) h)
      (fun o ho => hstable o (by simp [ho]))

theorem timerInv_runReply (ops : List ReplyOp) :
    ∀ s, timerInv s → (∀ op ∈ ops, stableReplyOp op = true) →
      timerInv (ops.foldl replyStep s) := by
  induction ops with
  | nil => intro s h _; exact h
  | cons op rest ih =>
    intro s h hstable
    exact ih (replyStep s op)
      (timerInv_replyStep op (hstable op (by simp)) h)
      (fun o ho => hstable o (by simp [ho]))

theorem timerInv_length {s : SvcState} (h : timerInv s) :
    s.activeTimers.length ≤ 1 := by
  cases hh : s.timerHandle with
  | none => simp [h.1 hh]
  | some t => simp [h.2.1 t hh]

/-- Amended C1: a start call on a service whose `isRunning` flag is true
returns without performing any sync/check and without touching the state,
so in particular without installing a timer.  Moreover, along every
sequence of start/stop calls whose environments are stable — the settings
read inside the initial sync/check never reports the feature disabled —
at most one interval timer per service is active.  (Without stability the
bound fails: see the counterexample, where a sync that observes the
feature disabled stops the service mid-start, the start still installs a
timer, and a later start installs a second one.) -/
theorem c1_start_guard_single_timer_amended :
    (∀ (e : StartSyncEnv) (s : SvcState), s.isRunning = true →
      startAutoSync e s = Except.ok (s, false)) ∧
    (∀ (e : StartReplyEnv) (s : SvcState), s.isRunning = true →
      startAutoReply e s = Except.ok (s, [])) ∧
    (∀ ops : List SyncOp, (∀ op ∈ ops, stableSyncOp op = true) →
      (runSyncOps ops).activeTimers.length ≤ 1) ∧
    (∀ ops : List ReplyOp, (∀ op ∈ ops, stableReplyOp op = true) →
      (runReplyOps ops).activeTimers.length ≤ 1) := by
  refine ⟨?_, ?_, ?_, ?_⟩
  · intro e s hr
    unfold startAutoSync
    simp [hr]
  · intro e s hr
    unfold startAutoReply
    simp [hr]
  · intro ops hstable
    exact timerInv_length (timerInv_runSync ops initSvcState timerInv_init hstable)
  · intro ops hstable
    exact timerInv_length (timerInv_runReply ops initSvcState timerInv_init hstable)

/-- A start environment whose sync-time settings read flips to disabled. -/
def c1FlipEnv : StartSyncEnv :=
  ⟨some "t", .ok true, ⟨some "t", .ok false, .ok true⟩⟩

/-- A start environment with consistent, enabled settings. -/
def c1GoodEnv : StartSyncEnv :=
  ⟨some "t", .ok true, ⟨some "t", .ok true, .ok true⟩⟩

/-- C1 counterexample: two start calls suffice to leave two interval
timers active at once.  The first start's initial sync observes auto-sync
disabled and stops the service, but the start still installs a timer with
the flag now false; the second start therefore passes the guard and
installs a second timer while the first is never cleared.  This refutes
the claim's conclusion that the boolean flag keeps at most one timer per
service active. -/
theorem c1_two_timers_counterexample :
    (runSyncOps [.start c1FlipEnv, .start c1GoodEnv]).activeTimers.length = 2 ∧
    ¬((runSyncOps [.start c1FlipEnv, .start c1GoodEnv]).activeTimers.length ≤ 1) := by
  constructor
  · rfl
  · decide

/-- A concrete stable start environment for the auto-reply service. -/
def c1ReplyEnv : StartReplyEnv :=
  ⟨some "t", .ok true,
   ⟨some "t", .ok true, .ok [], fun _ => .ok none, fun _ _ => .ok true, "now"⟩⟩

/-- Witness for C1 exercising both guard statements and both stable-run
bounds at concrete inputs. -/
theorem c1_start_guard_single_timer_witness :
    (startAutoSync c1GoodEnv ⟨true, none, [], 0, false, none⟩ =
      Except.ok (⟨true, none, [], 0, false, none⟩, false)) ∧
    (startAutoReply c1ReplyEnv ⟨true, none, [], 0, false, none⟩ =
      Except.ok (⟨true, none, [], 0, false, none⟩, [])) ∧
    (runSyncOps [.start c1GoodEnv, .stop]).activeTimers.length ≤ 1 ∧
    (runReplyOps [.start c1ReplyEnv, .stop]).activeTimers.length ≤ 1 :=
  ⟨c1_start_guard_single_timer_amended.1 c1GoodEnv ⟨true, none, [], 0, false, none⟩ rfl,
   c1_start_guard_single_timer_amended.2.1 c1ReplyEnv ⟨true, none, [], 0, false, none⟩ rfl,
   c1_start_guard_single_timer_amended.2.2.1 [.start c1GoodEnv, .stop]
     (by intro op hop; fin_cases hop <;> rfl),
   c1_start_guard_single_timer_amended.2.2.2 [.start c1ReplyEnv, .stop]
     (by intro op hop; fin_cases hop <;> rfl)⟩

/-! ## The auto-reply payload and filters (claims C5 and C8) -/

/-- Sends produced by one `checkAndReplyToEmails` pass are either absent
(an early return) or exactly the per-email send calls over the fetched
page. -/
theorem checkAndReply_sends_cases (env : ReplyEnv) (s s' : SvcState)
    (sends : List (Nat × String))
    (h : checkAndReplyToEmails env s = Except.ok (s', sends)) :
    sends = [] ∨ ∃ emails, env.fetchResult = Except.ok emails ∧
      sends = (emails.filter unreadFilter).filterMap (processEmail env) := by
  unfold checkAndReplyToEmails checkAndReplyTry at h
  by_cases ht : (!strTruthy env.token) = true
  · simp [ht] at h
    exact Or.inl h.2
  · simp only [ht, Bool.false_eq_true, if_false] at h
    cases hsr : env.settingsResult with
    | error m =>
      rw [hsr] at h
      simp at h
      exact Or.inl h.2
    | ok enabled =>
      rw [hsr] at h
      cases enabled with
      | false =>
        simp at h
        exact Or.inl h.2
      | true =>
        cases hf : env.fetchResult with
        | error m =>
          rw [hf] at h
          simp at h
          exact Or.inl h.2
        | ok emails =>
          rw [hf] at h
          by_cases hu : (emails.filter unreadFilter).isEmpty = true
          · simp [hu] at h
            exact Or.inl h.2
          · simp [hu] at h
            exact Or.inr ⟨emails, rfl, h.2.symm⟩

/-- C8: every send call issued by an auto-reply pass stems from a fetched
email, and no send call is derived from an email that is read, already
has a (truthy) `replied_at`, is missing `from_email` or `to_email`, has a
no-reply sender address, or whose generated reply is empty after
trimming. -/
theorem c8_reply_filters :
    (∀ (env : ReplyEnv) (s s' : SvcState) (sends : List (Nat × String)),
      checkAndReplyToEmails env s = Except.ok (s', sends) →
      ∀ p ∈ sends, ∃ emails, env.fetchResult = Except.ok emails ∧
        ∃ e ∈ emails, emailSendCall env e = some p) ∧
    (∀ (env : ReplyEnv) (e : Email),
      (e.read = true ∨ strTruthy e.replied_at = true ∨ e.from_email.isEmpty = true ∨
        e.to_email.isEmpty = true ∨ isNoReplyAddress e.from_email = true ∨
        (∀ r : String, env.replyOf e.id = Except.ok (some r) → (strTrim r).isEmpty = true)) →
      emailSendCall env e = none) := by
  constructor
  · intro env s s' sends hck p hp
    rcases checkAndReply_sends_cases env s s' sends hck with hnil | ⟨emails, hf, hs⟩
    · rw [hnil] at hp
      exact absurd hp (by simp)
    · refine ⟨emails, hf, ?_⟩
      rw [hs] at hp
      rcases List.mem_filterMap.mp hp with ⟨e, he, hpe⟩
      rcases List.mem_filter.mp he with ⟨hmem, hu⟩
      refine ⟨e, hmem, ?_⟩
      unfold emailSendCall
      rw [if_pos hu]
      exact hpe
  · intro env e hbad
    unfold emailSendCall
    by_cases hu : unreadFilter e = true
    · rw [if_pos hu]
      have hread : e.read = false ∧ strTruthy e.replied_at = false := by
        unfold unreadFilter at hu
        simpa using hu
      unfold processEmail
      rcases hbad with hb | hb | hb | hb | hb | hb
      · simp [hread.1] at hb
      · simp [hread.2] at hb
      · simp [hb]
      · simp [hb]
      · by_cases h1 :
          (strTruthy e.replied_at || e.from_email.isEmpty || e.to_email.isEmpty) = true
        · simp [h1]
        · simp only [h1, Bool.false_eq_true, if_false]
          simp [hb]
      · by_cases h1 :
          (strTruthy e.replied_at || e.from_email.isEmpty || e.to_email.isEmpty) = true
        · simp [h1]
        · simp only [h1, Bool.false_eq_true, if_false]
          by_cases h2 : isNoReplyAddress e.from_email = true
          · simp [h2]
          · simp only [h2, Bool.false_eq_true, if_false]
            cases hr : env.replyOf e.id with
            | error m => rfl
            | ok ro =>
              cases ro with
              | none => rfl
              | some r => simp [hb r hr]
    · rw [if_neg hu]

/-- A fresh unread email from a regular sender. -/
def c8GoodEmail : Email := ⟨5, "bob@example.com", "me@example.com", false, none⟩

/-- The same email already marked read. -/
def c8ReadEmail : Email := ⟨6, "bob@example.com", "me@example.com", true, none⟩

/-- An auto-reply environment fetching one good and one read email. -/
def c8Env : ReplyEnv :=
  ⟨some "t", .ok true, .ok [c8GoodEmail, c8ReadEmail],
   fun _ => .ok (some "ok"), fun _ _ => .ok true, "now"⟩

/-- Witness for C8: a concrete pass issues exactly the send derived from
the good email, and the read email yields no send call. -/
theorem c8_reply_filters_witness :
    (∃ emails, c8Env.fetchResult = Except.ok emails ∧
      ∃ e ∈ emails, emailSendCall c8Env e = some (5, "ok")) ∧
    emailSendCall c8Env c8ReadEmail = none :=
  ⟨c8_reply_filters.1 c8Env initSvcState
    { initSvcState with lastChecked := some "now" } [(5, "ok")] rfl
    (5, "ok") (by simp),
   c8_reply_filters.2 c8Env c8ReadEmail (Or.inl rfl)⟩

/-- Amended C5: the reply text the loop passes to `sendReply` is the
`generateReply` output trimmed of surrounding whitespace and truncated to
at most 50000 characters — so it equals the generated reply exactly when
that reply is already trimmed and short enough; the email id is passed
through unchanged. -/
theorem c5_reply_payload_amended (env : ReplyEnv) (e : Email) (i : Nat)
    (txt : String) (h : emailSendCall env e = some (i, txt)) :
    i = e.id ∧ ∃ r : String, env.replyOf e.id = Except.ok (some r) ∧
      txt = (if strLength (strTrim r) > 50000 then strTake (strTrim r) 50000 else strTrim r) := by
  unfold emailSendCall at h
  by_cases hu : unreadFilter e = true
  · rw [if_pos hu] at h
    unfold processEmail at h
    by_cases h1 :
        (strTruthy e.replied_at || e.from_email.isEmpty || e.to_email.isEmpty) = true
    · rw [if_pos h1] at h
      exact absurd h (by simp)
    · rw [if_neg h1] at h
      by_cases h2 : isNoReplyAddress e.from_email = true
      · rw [if_pos h2] at h
        exact absurd h (by simp)
      · rw [if_neg h2] at h
        cases hr : env.replyOf e.id with
        | error m =>
          rw [hr] at h
          exact absurd h (by simp)
        | ok ro =>
          cases ro with
          | none =>
            rw [hr] at h
            exact absurd h (by simp)
          | some r =>
            rw [hr] at h
            by_cases h3 : (strTrim r).isEmpty = true
            · simp [h3] at h
            · simp only [h3, Bool.false_eq_true, if_false] at h
              simp only [Option.some.injEq, Prod.mk.injEq] at h
              exact ⟨h.1.symm, r, rfl, h.2.symm⟩
  · rw [if_neg hu] at h
    exact absurd h (by simp)

/-- The email the C5 scenario replies to. -/
def c5Email : Email := ⟨7, "alice@example.com", "me@example.com", false, none⟩

/-- An environment whose generated reply carries surrounding whitespace. -/
def c5Env : ReplyEnv :=
  ⟨some "t", .ok true, .ok [c5Email],
   fun _ => .ok (some " hi "), fun _ _ => .ok true, "now"⟩

/-- C5 counterexample: with a generated reply of " hi " the loop passes
"hi" to `sendReply` — the payload is trimmed, not proxied verbatim, so
the claim that the sent text equals the `generateReply` output fails. -/
theorem c5_reply_payload_counterexample :
    c5Env.replyOf 7 = Except.ok (some " hi ") ∧
    checkAndReplyToEmails c5Env initSvcState =
      Except.ok ({ initSvcState with lastChecked := some "now" }, [(7, "hi")]) ∧
    emailSendCall c5Env c5Email = some (7, "hi") ∧
    ("hi" : String) ≠ " hi " := by
  refine ⟨rfl, rfl, rfl, by decide⟩

/-- Witness for C5 applying the amended theorem at the concrete scenario. -/
theorem c5_reply_payload_witness :
    7 = c5Email.id ∧ ∃ r : String, c5Env.replyOf c5Email.id = Except.ok (some r) ∧
      "hi" = (if strLength (strTrim r) > 50000 then strTake (strTrim r) 50000 else strTrim r) :=
  c5_reply_payload_amended c5Env c5Email 7 "hi" rfl

/-! ## InboxScreen loadEmails (claim C2) -/

/-- One page of the `/emails` response (the pagination fields the screen
reads). -/
structure EmailsPage where
  emails : List Email
  current_page : Nat
  total_pages : Nat
deriving DecidableEq

/-- The InboxScreen state touched by `loadEmails` (loading spinners are
not modelled; the alert raised for a first-page failure is represented by
the `error` field it accompanies). -/
structure InboxState where
  emails : List Email
  currentPage : Nat
  totalPages : Nat
  error : Option String
deriving DecidableEq

/-- Embedding of `loadEmails` (InboxScreen).  `error` is cleared before
the fetch; a fetch failure stores its message.  On success the branch
`page === 1 || showRefresh` decides between replacing the held emails
with the response and appending the fetched page; the `append` argument
only drives the loading-more spinner. -/
def loadEmails (page : Nat) (showRefresh append : Bool)
    (fetch : Except String EmailsPage) (st : InboxState) : InboxState :=
  match fetch with
  | .error msg => { st with error := some msg }
  | .ok resp =>
    { emails :=
        if page = 1 || showRefresh then resp.emails else st.emails ++ resp.emails,
      currentPage := resp.current_page,
      totalPages := resp.total_pages,
      error := none }

/-- Amended C2: a first-page or refresh fetch replaces the held email
records wholesale with the server response, while a load-more fetch
(page > 1 without refresh) appends the fetched page to the held records;
a failed fetch leaves the records untouched.  No reconciliation, merging
or reordering happens in any case. -/
theorem c2_loadEmails_amended (page : Nat) (showRefresh append : Bool)
    (fetch : Except String EmailsPage) (st : InboxState) :
    (∀ resp : EmailsPage, fetch = .ok resp → (page = 1 ∨ showRefresh = true) →
      (loadEmails page showRefresh append fetch st).emails = resp.emails) ∧
    (∀ resp : EmailsPage, fetch = .ok resp → page ≠ 1 → showRefresh = false →
      (loadEmails page showRefresh append fetch st).emails = st.emails ++ resp.emails) ∧
    (∀ msg : String, fetch = .error msg →
      (loadEmails page showRefresh append fetch st).emails = st.emails) := by
  refine ⟨?_, ?_, ?_⟩
  · intro resp hf hp
    unfold loadEmails
    rcases hp with hp | hp <;> simp [hf, hp]
  · intro resp hf hp hs
    unfold loadEmails
    simp [hf, hp, hs]
  · intro msg hf
    unfold loadEmails
    simp [hf]

/-- An email already held by the screen. -/
def c2Email1 : Email := ⟨1, "a@example.com", "me@example.com", false, none⟩

/-- An email arriving on the second page. -/
def c2Email2 : Email := ⟨2, "b@example.com", "me@example.com", false, none⟩

/-- Screen state holding the first page. -/
def c2State : InboxState := ⟨[c2Email1], 1, 2, none⟩

/-- The second page as returned by the server. -/
def c2Page : EmailsPage := ⟨[c2Email2], 2, 2⟩

/-- C2 counterexample: a load-more fetch of page 2 appends the fetched
records to the held ones instead of replacing them wholesale with the
server response, refuting the claim that the app never appends. -/
theorem c2_loadEmails_counterexample :
    (loadEmails 2 false true (.ok c2Page) c2State).emails = [c2Email1, c2Email2] ∧
    (loadEmails 2 false true (.ok c2Page) c2State).emails ≠ c2Page.emails := by
  exact ⟨rfl, by decide⟩

/-- Witness for C2 instantiating the replace, append and failure branches
of the amended theorem on concrete pages. -/
theorem c2_loadEmails_amended_witness :
    ((loadEmails 1 false false (.ok c2Page) c2State).emails = c2Page.emails) ∧
    ((loadEmails 2 false true (.ok c2Page) c2State).emails =
      c2State.emails ++ c2Page.emails) ∧
    ((loadEmails 1 false false (.error "net") c2State).emails = c2State.emails) :=
  ⟨(c2_loadEmails_amended 1 false false (.ok c2Page) c2State).1 c2Page rfl (Or.inl rfl),
   (c2_loadEmails_amended 2 false true (.ok c2Page) c2State).2.1 c2Page rfl
     (by decide) rfl,
   (c2_loadEmails_amended 1 false false (.error "net") c2State).2.2 "net" rfl⟩

/-! ## SettingsScreen (claim C7) -/

/-- The `Settings` record of the API, in interface order. -/
structure Settings where
  auto_sync_enabled : Bool
  auto_sync_frequency : Int
  theme : String
  language : String
  signature : String
  auto_reply_enabled : Bool
deriving DecidableEq

/-- The `Partial<Settings>` object held in `localSettings`. -/
structure SettingsPatch where
  auto_sync_enabled : Option Bool
  auto_sync_frequency : Option Int
  theme : Option String
  language : Option String
  signature : Option String
  auto_reply_enabled : Option Bool
deriving DecidableEq

/-- A full settings record viewed as a patch (`setLocalSettings(data.settings)`). -/
def toPatch (s : Settings) : SettingsPatch :=
  ⟨some s.auto_sync_enabled, some s.auto_sync_frequency, some s.theme,
   some s.language, some s.signature, some s.auto_reply_enabled⟩

/-- The two boolean keys `handleToggleSetting` is invoked with. -/
inductive ToggleKey where
  | auto_sync_enabled
  | auto_reply_enabled
deriving DecidableEq

/-- The spread `{ ...localSettings, [key]: value }`. -/
def setKey (p : SettingsPatch) (k : ToggleKey) (v : Bool) : SettingsPatch :=
  match k with
  | .auto_sync_enabled => { p with auto_sync_enabled := some v }
  | .auto_reply_enabled => { p with auto_reply_enabled := some v }

/-- The `/settings` response: the settings plus the account user. -/
structure SettingsResponse where
  settings : Settings
  user : User
deriving DecidableEq

/-- The SettingsScreen state touched by a toggle (the `saving` spinner is
not modelled). -/
structure ScreenState where
  settingsData : Option SettingsResponse
  localSettings : SettingsPatch
deriving DecidableEq

/-- Environment for one save: the outcome of `updateSettings`, of the
`getSettings` issued after a successful update, and of the `getSettings`
inside the `loadSettings` fallback. -/
structure SaveEnv where
  updateResult : Except String Unit
  refetch : Except String SettingsResponse
  reload : Except String SettingsResponse

/-- Embedding of `loadSettings`: refreshes both pieces of state from the
server; a failure only alerts, leaving the state unchanged. -/
def loadSettings (r : Except String SettingsResponse) (st : ScreenState) :
    ScreenState :=
  match r with
  | .ok d => ⟨some d, toPatch d.settings⟩
  | .error _ => st

/-- Embedding of `saveSettings`: sends the payload via `updateSettings`;
on success refetches and installs the server settings; any failure alerts
and falls back to `loadSettings`. -/
def saveSettings (env : SaveEnv) (st : ScreenState) : ScreenState :=
  match env.updateResult with
  | .error _ => loadSettings env.reload st
  | .ok _ =>
    match env.refetch with
    | .ok d => ⟨some d, toPatch d.settings⟩
    | .error _ => loadSettings env.reload st

/-- Embedding of `handleToggleSetting` for the two boolean toggles: sets
the key optimistically in `localSettings` and saves the updated patch;
returns the final screen state together with the payload passed to
`updateSettings`.  The subsequent service start/stop calls act on the
service module state and are covered by the service machines above. -/
def handleToggleSetting (k : ToggleKey) (v : Bool) (env : SaveEnv)
    (st : ScreenState) : ScreenState × SettingsPatch :=
  let updated := setKey st.localSettings k v
  (saveSettings env { st with localSettings := updated }, updated)

/-- Amended C7: every toggle sends the updated settings patch to the
backend via `updateSettings`; when the update and the subsequent
`getSettings` succeed, the local settings equal the settings that call
returned; when either fails, a reload from the server is attempted — the
local settings equal the reloaded server settings when it succeeds, and
keep the optimistic toggled value when the reload fails too. -/
theorem c7_toggle_persistence_amended (k : ToggleKey) (v : Bool)
    (env : SaveEnv) (st : ScreenState) :
    ((handleToggleSetting k v env st).2 = setKey st.localSettings k v) ∧
    (∀ d : SettingsResponse, env.updateResult = .ok () → env.refetch = .ok d →
      (handleToggleSetting k v env st).1 = ⟨some d, toPatch d.settings⟩) ∧
    (∀ (m : String) (d : SettingsResponse), env.updateResult = .error m →
      env.reload = .ok d →
      (handleToggleSetting k v env st).1 = ⟨some d, toPatch d.settings⟩) ∧
    (∀ (m : String) (d : SettingsResponse), env.updateResult = .ok () →
      env.refetch = .error m → env.reload = .ok d →
      (handleToggleSetting k v env st).1 = ⟨some d, toPatch d.settings⟩) ∧
    (∀ m m' : String, env.updateResult = .error m → env.reload = .error m' →
      (handleToggleSetting k v env st).1 =
        ⟨st.settingsData, setKey st.localSettings k v⟩) ∧
    (∀ m m' : String, env.updateResult = .ok () → env.refetch = .error m →
      env.reload = .error m' →
      (handleToggleSetting k v env st).1 =
        ⟨st.settingsData, setKey st.localSettings k v⟩) := by
  refine ⟨rfl, ?_, ?_, ?_, ?_, ?_⟩
  · intro d hu hr
    unfold handleToggleSetting saveSettings
    simp [hu, hr]
  · intro m d hu hr
    unfold handleToggleSetting saveSettings loadSettings
    simp [hu, hr]
  · intro m d hu hf hr
    unfold handleToggleSetting saveSettings loadSettings
    simp [hu, hf, hr]
  · intro m m' hu hr
    unfold handleToggleSetting saveSettings loadSettings
    simp [hu, hr]
  · intro m m' hu hf hr
    unfold handleToggleSetting saveSettings loadSettings
    simp [hu, hf, hr]

/-- The server settings before the toggle (auto-sync off). -/
def c7Settings : Settings := ⟨false, 1, "light", "en", "", false⟩

/-- The account user. -/
def c7User : User := ⟨1, "u@example.com", "U", none⟩

/-- The `/settings` response before the toggle. -/
def c7Resp : SettingsResponse := ⟨c7Settings, c7User⟩

/-- The server settings after the server applied the toggle. -/
def c7Settings2 : Settings := ⟨true, 1, "light", "en", "", false⟩

/-- The `/settings` response after a successful toggle. -/
def c7Resp2 : SettingsResponse := ⟨c7Settings2, c7User⟩

/-- Screen state synchronised with the server before the toggle. -/
def c7State : ScreenState := ⟨some c7Resp, toPatch c7Settings⟩

/-- An environment where the update and the fallback reload both fail. -/
def c7EnvDoubleFail : SaveEnv := ⟨.error "upd", .error "unused", .error "reload"⟩

/-- An environment where the whole save succeeds. -/
def c7EnvOk : SaveEnv := ⟨.ok (), .ok c7Resp2, .error "unused"⟩

/-- An environment where the update fails but the reload succeeds. -/
def c7EnvFailReload : SaveEnv := ⟨.error "upd", .error "unused", .ok c7Resp⟩

/-- C7 counterexample: when the update fails and the fallback
`getSettings` fails as well, the local settings keep the optimistic
toggled value — the previous server settings are not restored, refuting
the claim's failure clause. -/
theorem c7_toggle_persistence_counterexample :
    (handleToggleSetting .auto_sync_enabled true c7EnvDoubleFail c7State).1.localSettings
      ≠ toPatch c7Resp.settings ∧
    (handleToggleSetting .auto_sync_enabled true c7EnvDoubleFail c7State).1.localSettings
      = setKey c7State.localSettings .auto_sync_enabled true := by
  exact ⟨by decide, rfl⟩

/-- Witness for C7 instantiating the sent payload, the success path, the
reload path and the double-failure path at concrete inputs. -/
theorem c7_toggle_persistence_witness :
    ((handleToggleSetting .auto_sync_enabled true c7EnvOk c7State).2 =
      setKey c7State.localSettings .auto_sync_enabled true) ∧
    ((handleToggleSetting .auto_sync_enabled true c7EnvOk c7State).1 =
      ⟨some c7Resp2, toPatch c7Resp2.settings⟩) ∧
    ((handleToggleSetting .auto_sync_enabled true c7EnvFailReload c7State).1 =
      ⟨some c7Resp, toPatch c7Resp.settings⟩) ∧
    ((handleToggleSetting .auto_sync_enabled true c7EnvDoubleFail c7State).1 =
      ⟨c7State.settingsData, setKey c7State.localSettings .auto_sync_enabled true⟩) :=
  ⟨(c7_toggle_persistence_amended .auto_sync_enabled true c7EnvOk c7State).1,
   (c7_toggle_persistence_amended .auto_sync_enabled true c7EnvOk c7State).2.1
     c7Resp2 rfl rfl,
   (c7_toggle_persistence_amended .auto_sync_enabled true c7EnvFailReload c7State).2.2.1
     "upd" c7Resp rfl rfl,
   (c7_toggle_persistence_amended .auto_sync_enabled true c7EnvDoubleFail c7State).2.2.2.2.1
     "upd" "reload" rfl rfl⟩

end GmailAssistant
